import Mathlib

/-!
Shallow embedding of the three sample scripts of the repository
(`demo_output.py`, `example_task.py`, `test_colors.py`).

Each script is modelled as a generator of an explicit trace of console
events.  External inputs of a run — the process id, the wall clock read by
`datetime.now()`, the pseudo-random draws of `random.random()` and the
interpreter version string — are parameters of the generators.  Timed
delays (`time.sleep`) are recorded as events carrying the delay in
milliseconds (all delays of the scripts are exact multiples of 0.1 s).
-/

/-! ### Generic helpers on lists of characters / strings -/

/-- Boolean test that the first list occurs at the head of the second. -/
def leadsWith {α : Type} [DecidableEq α] : List α → List α → Bool
  | [], _ => true
  | _ :: _, [] => false
  | a :: as, b :: bs => if a = b then leadsWith as bs else false

/-- Boolean test that the first list occurs at the end of the second. -/
def trailsWith {α : Type} [DecidableEq α] (suf l : List α) : Bool :=
  leadsWith suf.reverse l.reverse

/-- Boolean test that the first list occurs as a contiguous run inside the second. -/
def hasRun {α : Type} [DecidableEq α] (mid : List α) : List α → Bool
  | [] => decide (mid = [])
  | a :: as => leadsWith mid (a :: as) || hasRun mid as

/-! ### `demo_output.py` — demo output generator

The trace alphabet: a line printed to stdout, a line printed to stderr,
an explicit flush of either stream, and a timed delay. -/

inductive Ev where
  | out (s : String)
  | err (s : String)
  | flushOut
  | flushErr
  | sleepMs (ms : Nat)
deriving DecidableEq, Repr

/-- Banner, script name (`os.path.basename(__file__)`), pid, blank line,
start message, `time.sleep(1)`. -/
def demoHeader (pid : Nat) : List Ev :=
  [Ev.out "=== Script Runner Demo ===",
   Ev.out ("Script: " ++ "demo_output.py"),
   Ev.out ("PID: " ++ toString pid),
   Ev.out "",
   Ev.out "Starting demonstration...",
   Ev.sleepMs 1000]

/-- Progress loop: `for i in range(1, 11): print(f"Progress: {i}/10 ({i*10}%)"); sys.stdout.flush(); time.sleep(0.5)`. -/
def demoProgress : List Ev :=
  (List.range' 1 10).flatMap fun i =>
    [Ev.out ("Progress: " ++ toString i ++ "/10 (" ++ toString (i * 10) ++ "%)"),
     Ev.flushOut, Ev.sleepMs 500]

/-- Blank line, section header, the stdout line, the stderr line,
`sys.stderr.flush()`, and the long-output header. -/
def demoMid : List Ev :=
  [Ev.out "", Ev.out "Testing different output types:",
   Ev.out "This goes to stdout", Ev.err "This goes to stderr", Ev.flushErr,
   Ev.out "\nGenerating long output:"]

/-- Long-output loop: `for i in range(20): print(f"Line {i+1}: Lorem ipsum ..."); if i % 5 == 4: time.sleep(0.3)`. -/
def demoLorem : List Ev :=
  (List.range 20).flatMap fun i =>
    Ev.out ("Line " ++ toString (i + 1) ++ ": Lorem ipsum dolor sit amet, consectetur adipiscing elit.")
      :: (if i % 5 == 4 then [Ev.sleepMs 300] else [])

/-- Final status lines. -/
def demoTail : List Ev :=
  [Ev.out "\n✓ Demo completed successfully!",
   Ev.out "Total execution time: ~8 seconds"]

/-- The full trace of `demo_output.main()`. -/
def demo_events (pid : Nat) : List Ev :=
  demoHeader pid ++ demoProgress ++ demoMid ++ demoLorem ++ demoTail

/-- Stdout lines starting with "Progress:". -/
def progressOf : Ev → Option String
  | Ev.out s => if leadsWith "Progress:".data s.data then some s else none
  | _ => none

def progressTexts (es : List Ev) : List String := es.filterMap progressOf

/-- Stdout lines starting with "Line ". -/
def loremOf : Ev → Option String
  | Ev.out s => if leadsWith "Line ".data s.data then some s else none
  | _ => none

def loremTexts (es : List Ev) : List String := es.filterMap loremOf

/-- Lines written to the stderr stream. -/
def errOf : Ev → Option String
  | Ev.err s => some s
  | _ => none

def errTexts (es : List Ev) : List String := es.filterMap errOf

/-- Stdout lines whose text is exactly "This goes to stdout". -/
def stdoutHitOf : Ev → Option String
  | Ev.out s => if s = "This goes to stdout" then some s else none
  | _ => none

def stdoutHits (es : List Ev) : List String := es.filterMap stdoutHitOf

/-- The structural skeleton of an event: which kind of console action it is,
with the text payload erased (delays are structural). -/
inductive EvShape where
  | outLine
  | errLine
  | flushO
  | flushE
  | pause (ms : Nat)
deriving DecidableEq, Repr

def evShape : Ev → EvShape
  | Ev.out _ => EvShape.outLine
  | Ev.err _ => EvShape.errLine
  | Ev.flushOut => EvShape.flushO
  | Ev.flushErr => EvShape.flushE
  | Ev.sleepMs ms => EvShape.pause ms

/-- `flushedRightAfter a b es` holds when every occurrence of the event `a`
in `es` is immediately followed by the event `b`. -/
def flushedRightAfter (a b : Ev) : List Ev → Bool
  | [] => true
  | [x] => !(x == a)
  | x :: y :: rest => (!(x == a) || (y == b)) && flushedRightAfter a b (y :: rest)

/-! ### `example_task.py` — task simulator -/

/-- The components of a `datetime.now()` reading used by
`strftime("%Y-%m-%d %H:%M:%S")`. -/
structure DateTime where
  year : Nat
  month : Nat
  day : Nat
  hour : Nat
  minute : Nat
  second : Nat
deriving DecidableEq, Repr

/-- Zero-padding to two digits (`%m`, `%d`, `%H`, `%M`, `%S`). -/
def pad2 (n : Nat) : String := if n < 10 then "0" ++ toString n else toString n

/-- Zero-padding to four digits (`%Y`). -/
def pad4 (n : Nat) : String :=
  if n < 10 then "000" ++ toString n
  else if n < 100 then "00" ++ toString n
  else if n < 1000 then "0" ++ toString n
  else toString n

/-- Rendering of `datetime.now().strftime("%Y-%m-%d %H:%M:%S")` on a structured time value. -/
def fmtTimestamp (t : DateTime) : String :=
  pad4 t.year ++ "-" ++ pad2 t.month ++ "-" ++ pad2 t.day ++ " " ++
    pad2 t.hour ++ ":" ++ pad2 t.minute ++ ":" ++ pad2 t.second

/-- Trace alphabet of the task simulator: a call of `log_message`
(timestamp reading, level, message) or a timed delay.  Rendering a `log`
event to raw console output is `render` below. -/
inductive TEv where
  | log (ts : DateTime) (level : String) (message : String)
  | sleepMs (ms : Nat)
deriving DecidableEq, Repr

/-- Model of `log_message(message, level="INFO")`: one timestamped line.
The level parameter defaults to "INFO" in the source; call sites that omit
it pass "INFO" here. -/
def log_message (ts : DateTime) (message : String) (level : String) : List TEv :=
  [TEv.log ts level message]

/-- Value of `progress = (i / steps) * 100` rendered by `f"{progress:.1f}"`:
for `i = 0..10` and `steps = 10` the float value is exactly the integer
`i * 10`, so one-decimal formatting yields `"{i*10}.0"`. -/
def pctString (i : Nat) : String := toString (i * 10) ++ ".0"

/-- Message `f"{task_name} progress: {progress:.1f}%"`. -/
def progressMsg (task_name : String) (i : Nat) : String :=
  task_name ++ " progress: " ++ pctString i ++ "%"

/-- Message `f"Minor issue in {task_name} (step {i+1})"`. -/
def warnMsg (task_name : String) (i : Nat) : String :=
  "Minor issue in " ++ task_name ++ " (step " ++ toString (i + 1) ++ ")"

/-- The `for i in range(steps + 1)` loop of `simulate_work`, with
`steps = 10`: log the progress line; while `i < steps` (that is, while
`stepsLeft > 0`, where `stepsLeft = steps - i`) sleep `duration / steps`
seconds (= `duration * 100` ms) and, when the pseudo-random draw for this
step is below 0.1, log the warning line.  `t` indexes the task for the
draw sequence, `i` is the loop counter, `n` counts prior `log_message`
calls (each one reads the clock). -/
def workLoop (clock : Nat → DateTime) (rnd : Nat → Nat → ℚ) (t : Nat)
    (duration : Nat) (task_name : String) : Nat → Nat → Nat → List TEv × Nat
  | 0, i, n => (log_message (clock n) (progressMsg task_name i) "INFO", n + 1)
  | stepsLeft + 1, i, n =>
    if rnd t i < (1 : ℚ) / 10 then
      let r := workLoop clock rnd t duration task_name stepsLeft (i + 1) (n + 2)
      (log_message (clock n) (progressMsg task_name i) "INFO"
        ++ [TEv.sleepMs (duration * 100)]
        ++ log_message (clock (n + 1)) (warnMsg task_name i) "WARNING"
        ++ r.1, r.2)
    else
      let r := workLoop clock rnd t duration task_name stepsLeft (i + 1) (n + 1)
      (log_message (clock n) (progressMsg task_name i) "INFO"
        ++ [TEv.sleepMs (duration * 100)] ++ r.1, r.2)

/-- Model of `simulate_work(duration, task_name)`: start line, progress
loop, completion line.  Returns the trace and the updated log-call counter. -/
def simulate_work (clock : Nat → DateTime) (rnd : Nat → Nat → ℚ) (t : Nat)
    (duration : Nat) (task_name : String) (n : Nat) : List TEv × Nat :=
  let startEvs := log_message (clock n) ("Starting " ++ task_name) "INFO"
  let loop := workLoop clock rnd t duration task_name 10 0 (n + 1)
  let doneEvs := log_message (clock loop.2) ("Completed " ++ task_name) "INFO"
  (startEvs ++ loop.1 ++ doneEvs, loop.2 + 1)

/-- The fixed ordered task list of `main`. -/
def tasks : List (String × Nat) :=
  [("Data Processing", 3), ("File Analysis", 2), ("Report Generation", 4)]

/-- Task loop: `for task_name, duration in tasks: simulate_work(duration, task_name); time.sleep(0.5)`. -/
def tasksLoop (clock : Nat → DateTime) (rnd : Nat → Nat → ℚ) :
    Nat → Nat → List (String × Nat) → List TEv × Nat
  | _, n, [] => ([], n)
  | t, n, (task_name, duration) :: rest =>
    let w := simulate_work clock rnd t duration task_name n
    let r := tasksLoop clock rnd (t + 1) w.2 rest
    (w.1 ++ [TEv.sleepMs 500] ++ r.1, r.2)

/-- The try-body of `main()`: two header lines, the three tasks, two
summary lines. -/
def mainBody (clock : Nat → DateTime) (rnd : Nat → Nat → ℚ) (pyVersion : String) : List TEv :=
  let a := log_message (clock 0) "Python example script starting" "INFO"
  let b := log_message (clock 1) ("Python version: " ++ pyVersion) "INFO"
  let tl := tasksLoop clock rnd 0 2 tasks
  let c := log_message (clock tl.2) "All tasks completed successfully" "INFO"
  let d := log_message (clock (tl.2 + 1)) "Summary: 3 tasks executed, 0 errors" "INFO"
  a ++ b ++ tl.1 ++ c ++ d

/-- How a run of `main()` ends: normal completion, a `KeyboardInterrupt`
raised after the first `k` events of the try-body, or another exception
with text `msg` raised after the first `k` events. -/
inductive RunOutcome where
  | normal
  | interrupt (k : Nat)
  | error (k : Nat) (msg : String)

/-- Number of `log_message` calls recorded in a trace (each one read the clock). -/
def logCount (es : List TEv) : Nat :=
  es.countP fun e => match e with | TEv.log _ _ _ => true | _ => false

/-- Run of `main()` with its `except` clauses: the produced trace and the
returned exit code (which `__main__` passes to `sys.exit`). -/
def mainRun (clock : Nat → DateTime) (rnd : Nat → Nat → ℚ) (pyVersion : String) :
    RunOutcome → List TEv × Int
  | RunOutcome.normal => (mainBody clock rnd pyVersion, 0)
  | RunOutcome.interrupt k =>
    let pre := (mainBody clock rnd pyVersion).take k
    (pre ++ log_message (clock (logCount pre)) "Script interrupted by user" "WARNING", 130)
  | RunOutcome.error k msg =>
    let pre := (mainBody clock rnd pyVersion).take k
    (pre ++ log_message (clock (logCount pre)) ("Unexpected error: " ++ msg) "ERROR", 1)

/-- Raw console actions of the task simulator: a printed line, a stdout
flush, a delay. -/
inductive OutEv where
  | print (line : String)
  | flushStdout
  | sleepMs (ms : Nat)
deriving DecidableEq, Repr

/-- The body of `log_message`:
`print(f"[{timestamp}] {level}: {message}"); sys.stdout.flush()`. -/
def renderLog (ts : DateTime) (level message : String) : List OutEv :=
  [OutEv.print ("[" ++ fmtTimestamp ts ++ "] " ++ level ++ ": " ++ message),
   OutEv.flushStdout]

def render : TEv → List OutEv
  | TEv.log ts lv m => renderLog ts lv m
  | TEv.sleepMs ms => [OutEv.sleepMs ms]

def renderAll : List TEv → List OutEv
  | [] => []
  | e :: es => render e ++ renderAll es

/-- Every printed line is immediately followed by a stdout flush. -/
def flushDiscipline : List OutEv → Bool
  | [] => true
  | OutEv.print _ :: OutEv.flushStdout :: rest => flushDiscipline rest
  | OutEv.print _ :: _ => false
  | _ :: rest => flushDiscipline rest

/-- Classify an event of the task-simulator trace for a given task name:
a progress line of that task (keeping the text after the fixed marker) or
a timed delay; anything else is dropped. -/
def shapeOf (name : String) : TEv → Option (String ⊕ Nat)
  | TEv.log _ _ msg =>
    if leadsWith (name ++ " progress: ").data msg.data
    then some (Sum.inl (String.mk (msg.data.drop (name ++ " progress: ").data.length)))
    else none
  | TEv.sleepMs ms => some (Sum.inr ms)

def stepShape (name : String) (es : List TEv) : List (String ⊕ Nat) :=
  es.filterMap (shapeOf name)

/-- Messages of WARNING-level lines. -/
def warnShape : TEv → Option String
  | TEv.log _ lv m => if lv = "WARNING" then some m else none
  | _ => none

def warnTexts (es : List TEv) : List String := es.filterMap warnShape

/-- Timestamp-free skeleton of a task-simulator event. -/
inductive TShape where
  | line (level message : String)
  | pause (ms : Nat)
deriving DecidableEq, Repr

def tShape : TEv → TShape
  | TEv.log _ lv m => TShape.line lv m
  | TEv.sleepMs ms => TShape.pause ms

/-- Timestamp-free skeleton with the randomized WARNING lines dropped. -/
def tShapeNW : TEv → Option TShape
  | TEv.log _ lv m => if lv = "WARNING" then none else some (TShape.line lv m)
  | TEv.sleepMs ms => some (TShape.pause ms)

/-! ### `test_colors.py` — color probe -/

/-- `print_colored(text, color_code)`: the single printed line
`f"\\033[{color_code}m{text}\\033[0m"`. -/
def colorWrap (color_code text : String) : String :=
  "\x1b[" ++ color_code ++ "m" ++ text ++ "\x1b[0m"

/-- The fixed standard color table. -/
def colors : List (String × String) :=
  [("Red", "31"), ("Green", "32"), ("Yellow", "33"), ("Blue", "34"),
   ("Magenta", "35"), ("Cyan", "36"), ("White", "37")]

/-- The fixed bright color table. -/
def bright_colors : List (String × String) :=
  [("Bright Red", "91"), ("Bright Green", "92"), ("Bright Yellow", "93"),
   ("Bright Blue", "94"), ("Bright Magenta", "95"), ("Bright Cyan", "96"),
   ("Bright White", "97")]

/-- The fixed (level, color, message) triples of the simulated log stream. -/
def log_entries : List (String × String × String) :=
  [("INFO", "32", "Application started successfully"),
   ("DEBUG", "36", "Loading configuration file"),
   ("WARNING", "33", "Configuration file not found, using defaults"),
   ("ERROR", "31", "Failed to connect to database"),
   ("INFO", "32", "Retrying connection..."),
   ("SUCCESS", "92", "Connected to database successfully")]

/-- Python string repetition `"=" * 25`. -/
def strRepeat (s : String) (n : Nat) : String := String.join (List.replicate n s)

/-- The full trace of `test_colors.main()`. -/
def colors_events : List Ev :=
  [Ev.out "Python ANSI Color Test", Ev.out (strRepeat "=" 25)]
  ++ colors.flatMap (fun nc => [Ev.out (colorWrap nc.2 (nc.1 ++ " text")), Ev.sleepMs 500])
  ++ [Ev.out "\nBright colors:"]
  ++ bright_colors.flatMap (fun nc => [Ev.out (colorWrap nc.2 (nc.1 ++ " text")), Ev.sleepMs 500])
  ++ [Ev.out "\nReal-time log simulation:"]
  ++ log_entries.flatMap (fun e =>
       [Ev.out (colorWrap e.2.1 ("[" ++ e.1 ++ "]")), Ev.out (" " ++ e.2.2), Ev.sleepMs 1000])
  ++ [Ev.out "\nColor test completed!"]

/-- Stdout lines starting with the ANSI escape introducer `ESC[`. -/
def coloredOf : Ev → Option String
  | Ev.out s => if leadsWith "\x1b[".data s.data then some s else none
  | _ => none

def coloredTexts (es : List Ev) : List String := es.filterMap coloredOf

/-- The line ends with the SGR reset sequence `ESC[0m`. -/
def endsWithReset (s : String) : Bool := trailsWith "\x1b[0m".data s.data

/-! ### Whole-script runs (exit codes) -/

/-- The external inputs of one process run. -/
structure ScriptEnv where
  pid : Nat
  clock : Nat → DateTime
  rnd : Nat → Nat → ℚ
  pyVersion : String

/-- Process run of `demo_output.py`: `main()` returns `None`; the process
exits with status 0. -/
def demo_run (env : ScriptEnv) : List Ev × Int := (demo_events env.pid, 0)

/-- Process run of `test_colors.py`: `main()` reads none of the run inputs
and returns `None`; the process exits with status 0. -/
def colors_run (_env : ScriptEnv) : List Ev × Int := (colors_events, 0)

/-- Process run of `example_task.py`: `sys.exit(main())`. -/
def task_run (env : ScriptEnv) (o : RunOutcome) : List TEv × Int :=
  mainRun env.clock env.rnd env.pyVersion o

/-- Expected alternation of the progress loop for one task: the eleven
one-decimal percentage texts (with the trailing percent sign) separated by
the ten per-step delays of `dms` milliseconds. -/
def expectedSteps (dms : Nat) : Nat → Nat → List (String ⊕ Nat)
  | 0, i => [Sum.inl (pctString i ++ "%")]
  | sl + 1, i => Sum.inl (pctString i ++ "%") :: Sum.inr dms :: expectedSteps dms sl (i + 1)

/-- Sample wall clock for concrete evaluations. -/
def wClock : Nat → DateTime := fun _ => ⟨2024, 1, 2, 3, 4, 5⟩

/-- Sample pseudo-random draw sequence (never below 0.1). -/
def wRnd : Nat → Nat → ℚ := fun _ _ => 1

/-! ### Helper lemmas -/

theorem strMk_data (s : String) : String.mk s.data = s := by cases s; rfl

theorem leadsWith_append_self {α : Type} [DecidableEq α] (p rest : List α) :
    leadsWith p (p ++ rest) = true := by
  induction p with
  | nil => rfl
  | cons a as ih => simp [leadsWith, ih]

theorem leadsWith_exists {α : Type} [DecidableEq α] :
    ∀ {p l : List α}, leadsWith p l = true → ∃ r, l = p ++ r
  | [], l, _ => ⟨l, rfl⟩
  | a :: as, [], h => by simp [leadsWith] at h
  | a :: as, b :: bs, h => by
    simp only [leadsWith] at h
    by_cases hab : a = b
    · rw [if_pos hab] at h
      obtain ⟨r, hr⟩ := leadsWith_exists h
      exact ⟨r, by rw [hr, ← hab]; rfl⟩
    · rw [if_neg hab] at h; exact absurd h (by simp)

theorem hasRun_exists {α : Type} [DecidableEq α] :
    ∀ {l : List α} {mid : List α}, hasRun mid l = true → ∃ a b, l = a ++ mid ++ b
  | [], mid, h => by
    refine ⟨[], [], ?_⟩
    simp only [hasRun] at h
    simp [of_decide_eq_true h]
  | x :: xs, mid, h => by
    simp only [hasRun, Bool.or_eq_true] at h
    rcases h with h | h
    · obtain ⟨r, hr⟩ := leadsWith_exists h
      exact ⟨[], r, by simp [hr]⟩
    · obtain ⟨a, b, hab⟩ := hasRun_exists h
      exact ⟨x :: a, b, by simp [hab]⟩

theorem progressOf_pid (pid : Nat) : progressOf (Ev.out ("PID: " ++ toString pid)) = none := by
  simp [progressOf, leadsWith, String.data_append]

theorem loremOf_pid (pid : Nat) : loremOf (Ev.out ("PID: " ++ toString pid)) = none := by
  simp [loremOf, leadsWith, String.data_append]

theorem stdoutHitOf_pid (pid : Nat) : stdoutHitOf (Ev.out ("PID: " ++ toString pid)) = none := by
  have h : ("PID: " ++ toString pid) ≠ "This goes to stdout" := by
    intro he
    have h2 := congrArg String.data he
    rw [String.data_append,
        show ("PID: ").data = 'P' :: "ID: ".data from rfl,
        show ("This goes to stdout").data = 'T' :: "his goes to stdout".data from rfl,
        List.cons_append] at h2
    exact absurd (List.head_eq_of_cons_eq h2) (by decide)
  simp [stdoutHitOf, h]

theorem progress_header (pid : Nat) : List.filterMap progressOf (demoHeader pid) = [] := by
  rw [show demoHeader pid =
        [Ev.out "=== Script Runner Demo ===", Ev.out ("Script: " ++ "demo_output.py")]
        ++ Ev.out ("PID: " ++ toString pid)
        :: [Ev.out "", Ev.out "Starting demonstration...", Ev.sleepMs 1000] from rfl,
      List.filterMap_append, List.filterMap_cons_none (progressOf_pid pid)]
  rfl

theorem lorem_header (pid : Nat) : List.filterMap loremOf (demoHeader pid) = [] := by
  rw [show demoHeader pid =
        [Ev.out "=== Script Runner Demo ===", Ev.out ("Script: " ++ "demo_output.py")]
        ++ Ev.out ("PID: " ++ toString pid)
        :: [Ev.out "", Ev.out "Starting demonstration...", Ev.sleepMs 1000] from rfl,
      List.filterMap_append, List.filterMap_cons_none (loremOf_pid pid)]
  rfl

theorem stdoutHit_header (pid : Nat) : List.filterMap stdoutHitOf (demoHeader pid) = [] := by
  rw [show demoHeader pid =
        [Ev.out "=== Script Runner Demo ===", Ev.out ("Script: " ++ "demo_output.py")]
        ++ Ev.out ("PID: " ++ toString pid)
        :: [Ev.out "", Ev.out "Starting demonstration...", Ev.sleepMs 1000] from rfl,
      List.filterMap_append, List.filterMap_cons_none (stdoutHitOf_pid pid)]
  rfl

theorem fmWarn_info (ts : DateTime) (m : String) :
    List.filterMap warnShape [TEv.log ts "INFO" m] = [] := rfl

theorem fmWarn_warn (ts : DateTime) (m : String) :
    List.filterMap warnShape [TEv.log ts "WARNING" m] = [m] := rfl

theorem fmWarn_sleep (k : Nat) : List.filterMap warnShape [TEv.sleepMs k] = [] := rfl

theorem warnTexts_workLoop (clock : Nat → DateTime) (rnd : Nat → Nat → ℚ) (t dur : Nat)
    (nm : String) : ∀ sl i n, List.filterMap warnShape (workLoop clock rnd t dur nm sl i n).1
      = ((List.range' i sl).filter fun j => decide (rnd t j < (1 : ℚ)/10)).map (warnMsg nm)
  | 0, i, n => by simp [workLoop, log_message, fmWarn_info, List.range']
  | sl + 1, i, n => by
    by_cases h : rnd t i < (1 : ℚ)/10
    · simp only [workLoop, if_pos h, log_message]
      rw [List.filterMap_append, List.filterMap_append, List.filterMap_append,
        fmWarn_info, fmWarn_sleep, fmWarn_warn,
        warnTexts_workLoop clock rnd t dur nm sl (i + 1) (n + 2)]
      rw [List.range'_succ, List.filter_cons, if_pos (decide_eq_true h)]
      simp
    · simp only [workLoop, if_neg h, log_message]
      rw [List.filterMap_append, List.filterMap_append,
        fmWarn_info, fmWarn_sleep,
        warnTexts_workLoop clock rnd t dur nm sl (i + 1) (n + 1)]
      rw [List.range'_succ, List.filter_cons,
        if_neg (fun hd => h (of_decide_eq_true hd))]
      simp

theorem shapeOf_progress (nm : String) (ts : DateTime) (lv : String) (i : Nat) :
    shapeOf nm (TEv.log ts lv (progressMsg nm i)) = some (Sum.inl (pctString i ++ "%")) := by
  have hdata : (progressMsg nm i).data
      = (nm ++ " progress: ").data ++ (pctString i ++ "%").data := by
    simp [progressMsg, String.data_append, List.append_assoc]
  show (if leadsWith (nm ++ " progress: ").data (progressMsg nm i).data = true then
      some (Sum.inl (String.mk ((progressMsg nm i).data.drop (nm ++ " progress: ").data.length)))
      else none) = some (Sum.inl (pctString i ++ "%"))
  rw [hdata, leadsWith_append_self, if_pos rfl, List.drop_left, strMk_data]

theorem fmShape_progress (nm : String) (ts : DateTime) (lv : String) (i : Nat) :
    List.filterMap (shapeOf nm) [TEv.log ts lv (progressMsg nm i)]
      = [Sum.inl (pctString i ++ "%")] := by
  simp [List.filterMap_cons, shapeOf_progress]

theorem fmShape_sleep (nm : String) (k : Nat) :
    List.filterMap (shapeOf nm) [TEv.sleepMs k] = [Sum.inr k] := rfl

theorem fmShape_reject (nm : String) (ts : DateTime) (lv m : String)
    (h : shapeOf nm (TEv.log ts lv m) = none) :
    List.filterMap (shapeOf nm) [TEv.log ts lv m] = [] := by
  simp [List.filterMap_cons, h]

theorem stepShape_workLoop (clock : Nat → DateTime) (rnd : Nat → Nat → ℚ) (t dur : Nat)
    (nm : String) (hw : ∀ (ts : DateTime) (i : Nat),
      shapeOf nm (TEv.log ts "WARNING" (warnMsg nm i)) = none) :
    ∀ sl i n, List.filterMap (shapeOf nm) (workLoop clock rnd t dur nm sl i n).1
      = expectedSteps (dur * 100) sl i
  | 0, i, n => by
    simp only [workLoop, log_message, expectedSteps]
    rw [fmShape_progress]
  | sl + 1, i, n => by
    by_cases h : rnd t i < (1 : ℚ)/10
    · simp only [workLoop, if_pos h, log_message]
      rw [List.filterMap_append, List.filterMap_append, List.filterMap_append,
        fmShape_progress, fmShape_sleep, fmShape_reject nm _ _ _ (hw _ i),
        stepShape_workLoop clock rnd t dur nm hw sl (i + 1) (n + 2)]
      simp [expectedSteps]
    · simp only [workLoop, if_neg h, log_message]
      rw [List.filterMap_append, List.filterMap_append,
        fmShape_progress, fmShape_sleep,
        stepShape_workLoop clock rnd t dur nm hw sl (i + 1) (n + 1)]
      simp [expectedSteps]

theorem shapeOf_warn_dp (ts : DateTime) (i : Nat) :
    shapeOf "Data Processing" (TEv.log ts "WARNING" (warnMsg "Data Processing" i)) = none := by
  simp [shapeOf, warnMsg, leadsWith, String.data_append]

theorem shapeOf_warn_fa (ts : DateTime) (i : Nat) :
    shapeOf "File Analysis" (TEv.log ts "WARNING" (warnMsg "File Analysis" i)) = none := by
  simp [shapeOf, warnMsg, leadsWith, String.data_append]

theorem shapeOf_warn_rg (ts : DateTime) (i : Nat) :
    shapeOf "Report Generation" (TEv.log ts "WARNING" (warnMsg "Report Generation" i)) = none := by
  simp [shapeOf, warnMsg, leadsWith, String.data_append]

theorem stepShape_sim (clock : Nat → DateTime) (rnd : Nat → Nat → ℚ) (t dur n : Nat)
    (nm : String) (hw : ∀ (ts : DateTime) (i : Nat),
      shapeOf nm (TEv.log ts "WARNING" (warnMsg nm i)) = none)
    (hs : shapeOf nm (TEv.log (clock n) "INFO" ("Starting " ++ nm)) = none)
    (hc : ∀ ts, shapeOf nm (TEv.log ts "INFO" ("Completed " ++ nm)) = none) :
    stepShape nm (simulate_work clock rnd t dur nm n).1 = expectedSteps (dur * 100) 10 0 := by
  show List.filterMap _ _ = _
  simp only [simulate_work, log_message]
  rw [List.filterMap_append, List.filterMap_append,
    fmShape_reject nm _ _ _ hs, fmShape_reject nm _ _ _ (hc _),
    stepShape_workLoop clock rnd t dur nm hw 10 0 (n + 1)]
  simp

theorem fmNW_info (ts : DateTime) (m : String) :
    List.filterMap tShapeNW [TEv.log ts "INFO" m] = [TShape.line "INFO" m] := rfl

theorem fmNW_warn (ts : DateTime) (m : String) :
    List.filterMap tShapeNW [TEv.log ts "WARNING" m] = [] := rfl

theorem fmNW_sleep (k : Nat) :
    List.filterMap tShapeNW [TEv.sleepMs k] = [TShape.pause k] := rfl

theorem tsnw_step (c : Nat → DateTime) (r : Nat → Nat → ℚ) (t d : Nat) (nm : String)
    (sl i n : Nat) :
    ∃ n', List.filterMap tShapeNW (workLoop c r t d nm (sl + 1) i n).1
      = TShape.line "INFO" (progressMsg nm i) :: TShape.pause (d * 100)
        :: List.filterMap tShapeNW (workLoop c r t d nm sl (i + 1) n').1 := by
  by_cases h : r t i < (1 : ℚ)/10
  · refine ⟨n + 2, ?_⟩
    simp only [workLoop, if_pos h, log_message]
    rw [List.filterMap_append, List.filterMap_append, List.filterMap_append,
      fmNW_info, fmNW_sleep, fmNW_warn]
    simp
  · refine ⟨n + 1, ?_⟩
    simp only [workLoop, if_neg h, log_message]
    rw [List.filterMap_append, List.filterMap_append, fmNW_info, fmNW_sleep]
    simp

theorem tsnw_workLoop (c₁ c₂ : Nat → DateTime) (r₁ r₂ : Nat → Nat → ℚ) (t₁ t₂ d : Nat)
    (nm : String) : ∀ sl i n₁ n₂,
    List.filterMap tShapeNW (workLoop c₁ r₁ t₁ d nm sl i n₁).1
      = List.filterMap tShapeNW (workLoop c₂ r₂ t₂ d nm sl i n₂).1
  | 0, i, n₁, n₂ => rfl
  | sl + 1, i, n₁, n₂ => by
    obtain ⟨m₁, e₁⟩ := tsnw_step c₁ r₁ t₁ d nm sl i n₁
    obtain ⟨m₂, e₂⟩ := tsnw_step c₂ r₂ t₂ d nm sl i n₂
    rw [e₁, e₂, tsnw_workLoop c₁ c₂ r₁ r₂ t₁ t₂ d nm sl (i + 1) m₁ m₂]

theorem tsnw_sim (c₁ c₂ : Nat → DateTime) (r₁ r₂ : Nat → Nat → ℚ) (t₁ t₂ d : Nat)
    (nm : String) (n₁ n₂ : Nat) :
    List.filterMap tShapeNW (simulate_work c₁ r₁ t₁ d nm n₁).1
      = List.filterMap tShapeNW (simulate_work c₂ r₂ t₂ d nm n₂).1 := by
  simp only [simulate_work, log_message]
  rw [List.filterMap_append, List.filterMap_append,
    List.filterMap_append, List.filterMap_append,
    tsnw_workLoop c₁ c₂ r₁ r₂ t₁ t₂ d nm 10 0 (n₁ + 1) (n₂ + 1)]
  rfl

theorem tsnw_tasks (c₁ c₂ : Nat → DateTime) (r₁ r₂ : Nat → Nat → ℚ) :
    ∀ (ls : List (String × Nat)) (t₁ t₂ n₁ n₂ : Nat),
    List.filterMap tShapeNW (tasksLoop c₁ r₁ t₁ n₁ ls).1
      = List.filterMap tShapeNW (tasksLoop c₂ r₂ t₂ n₂ ls).1
  | [], _, _, _, _ => rfl
  | (nm, d) :: rest, t₁, t₂, n₁, n₂ => by
    simp only [tasksLoop]
    rw [List.filterMap_append, List.filterMap_append,
      List.filterMap_append, List.filterMap_append,
      tsnw_sim c₁ c₂ r₁ r₂ t₁ t₂ d nm n₁ n₂,
      tsnw_tasks c₁ c₂ r₁ r₂ rest (t₁ + 1) (t₂ + 1)
        (simulate_work c₁ r₁ t₁ d nm n₁).2 (simulate_work c₂ r₂ t₂ d nm n₂).2]

theorem tsnw_mainBody (c₁ c₂ : Nat → DateTime) (r₁ r₂ : Nat → Nat → ℚ) (pv : String) :
    List.filterMap tShapeNW (mainBody c₁ r₁ pv) = List.filterMap tShapeNW (mainBody c₂ r₂ pv) := by
  simp only [mainBody, log_message]
  rw [List.filterMap_append, List.filterMap_append, List.filterMap_append,
    List.filterMap_append, List.filterMap_append, List.filterMap_append,
    List.filterMap_append, List.filterMap_append,
    tsnw_tasks c₁ c₂ r₁ r₂ tasks 0 0 2 2]
  rfl

theorem renderAll_append (l₁ l₂ : List TEv) :
    renderAll (l₁ ++ l₂) = renderAll l₁ ++ renderAll l₂ := by
  induction l₁ with
  | nil => rfl
  | cons e es ih => simp [renderAll, ih, List.append_assoc]

theorem renderAll_format : ∀ (es : List TEv) (s : String),
    OutEv.print s ∈ renderAll es →
    ∃ ts lv m, s = "[" ++ fmtTimestamp ts ++ "] " ++ lv ++ ": " ++ m
  | [], s, h => absurd h (by simp [renderAll])
  | TEv.log ts lv m :: es, s, h => by
    simp only [renderAll, render, renderLog, List.cons_append, List.nil_append,
      List.mem_cons] at h
    rcases h with h | h | h
    · exact ⟨ts, lv, m, by injection h⟩
    · exact absurd h (by simp)
    · exact renderAll_format es s h
  | TEv.sleepMs k :: es, s, h => by
    simp only [renderAll, render, List.cons_append, List.nil_append, List.mem_cons] at h
    rcases h with h | h
    · exact absurd h (by simp)
    · exact renderAll_format es s h

theorem flushDiscipline_renderAll : ∀ es : List TEv, flushDiscipline (renderAll es) = true
  | [] => rfl
  | TEv.log _ _ _ :: es => flushDiscipline_renderAll es
  | TEv.sleepMs _ :: es => flushDiscipline_renderAll es

/-! ### Claim theorems -/

/-- Claim C1: the task simulator's `main` returns 0 on normal completion;
on a `KeyboardInterrupt` it returns 130 and the rendered output is the
output produced so far followed by exactly one further printed line, a
WARNING line announcing the interruption (then its flush, and nothing
after); on any other exception it returns 1 and the output ends with one
ERROR line whose text contains the exception's text; the exit code is
always one of 0, 1, 130. -/
theorem claim_C1 (clock : Nat → DateTime) (rnd : Nat → Nat → ℚ) (pv : String) :
    (∀ o, (mainRun clock rnd pv o).2 = 0 ∨ (mainRun clock rnd pv o).2 = 1
      ∨ (mainRun clock rnd pv o).2 = 130)
    ∧ (mainRun clock rnd pv RunOutcome.normal).2 = 0
    ∧ (∀ k, (mainRun clock rnd pv (RunOutcome.interrupt k)).2 = 130
        ∧ renderAll (mainRun clock rnd pv (RunOutcome.interrupt k)).1
          = renderAll ((mainBody clock rnd pv).take k)
            ++ [OutEv.print ("[" ++ fmtTimestamp (clock (logCount ((mainBody clock rnd pv).take k)))
                  ++ "] " ++ "WARNING" ++ ": " ++ "Script interrupted by user"),
                OutEv.flushStdout])
    ∧ (∀ k m, (mainRun clock rnd pv (RunOutcome.error k m)).2 = 1
        ∧ ∃ ts pre, renderAll (mainRun clock rnd pv (RunOutcome.error k m)).1
            = pre ++ [OutEv.print ("[" ++ fmtTimestamp ts ++ "] " ++ "ERROR" ++ ": "
                ++ ("Unexpected error: " ++ m)), OutEv.flushStdout]
          ∧ ∃ q, ("[" ++ fmtTimestamp ts ++ "] " ++ "ERROR" ++ ": " ++ ("Unexpected error: " ++ m))
              = q ++ m) := by
  refine ⟨?_, rfl, ?_, ?_⟩
  · intro o
    cases o with
    | normal => exact Or.inl rfl
    | interrupt k => exact Or.inr (Or.inr rfl)
    | error k m => exact Or.inr (Or.inl rfl)
  · intro k
    refine ⟨rfl, ?_⟩
    show renderAll (_ ++ _) = _
    rw [renderAll_append]
    rfl
  · intro k m
    refine ⟨rfl, clock (logCount ((mainBody clock rnd pv).take k)),
      renderAll ((mainBody clock rnd pv).take k), ?_, ?_⟩
    · show renderAll (_ ++ _) = _
      rw [renderAll_append]
      rfl
    · refine ⟨"[" ++ fmtTimestamp (clock (logCount ((mainBody clock rnd pv).take k)))
        ++ "] " ++ "ERROR" ++ ": " ++ "Unexpected error: ", ?_⟩
      simp only [String.append_assoc]

/-- Claim C2: the demo output generator emits, in order, a banner, ten
progress lines `Progress: i/10 (i*10%)` for i = 1..10 each followed by a
stdout flush and a 0.5 s delay, one stdout line and one stderr line with
the specified literal texts, twenty numbered Lorem ipsum lines numbered
1..20 in increasing order with an extra 0.3 s delay after every fifth
line, and a completion banner; the counts are exact (10, 1, 1, 20). -/
theorem claim_C2 (pid : Nat) :
    (demo_events pid).head? = some (Ev.out "=== Script Runner Demo ===")
    ∧ progressTexts (demo_events pid) =
        ["Progress: 1/10 (10%)", "Progress: 2/10 (20%)", "Progress: 3/10 (30%)",
         "Progress: 4/10 (40%)", "Progress: 5/10 (50%)", "Progress: 6/10 (60%)",
         "Progress: 7/10 (70%)", "Progress: 8/10 (80%)", "Progress: 9/10 (90%)",
         "Progress: 10/10 (100%)"]
    ∧ stdoutHits (demo_events pid) = ["This goes to stdout"]
    ∧ errTexts (demo_events pid) = ["This goes to stderr"]
    ∧ loremTexts (demo_events pid) = (List.range' 1 20).map
        (fun n => "Line " ++ toString n ++ ": Lorem ipsum dolor sit amet, consectetur adipiscing elit.")
    ∧ ∃ l₁ l₂ l₃, demo_events pid
        = l₁
          ++ ((List.range' 1 10).flatMap fun i =>
              [Ev.out ("Progress: " ++ toString i ++ "/10 (" ++ toString (i * 10) ++ "%)"),
               Ev.flushOut, Ev.sleepMs 500])
          ++ l₂
          ++ [Ev.out "This goes to stdout", Ev.err "This goes to stderr", Ev.flushErr]
          ++ l₃
          ++ ((List.range 20).flatMap fun i =>
              Ev.out ("Line " ++ toString (i + 1) ++ ": Lorem ipsum dolor sit amet, consectetur adipiscing elit.")
                :: (if i % 5 == 4 then [Ev.sleepMs 300] else []))
          ++ [Ev.out "\n✓ Demo completed successfully!", Ev.out "Total execution time: ~8 seconds"] := by
  refine ⟨rfl, ?_, ?_, rfl, ?_,
    ⟨demoHeader pid, [Ev.out "", Ev.out "Testing different output types:"],
     [Ev.out "\nGenerating long output:"], rfl⟩⟩
  · show List.filterMap progressOf _ = _
    rw [demo_events, List.filterMap_append, List.filterMap_append, List.filterMap_append,
      List.filterMap_append, progress_header pid]
    rfl
  · show List.filterMap stdoutHitOf _ = _
    rw [demo_events, List.filterMap_append, List.filterMap_append, List.filterMap_append,
      List.filterMap_append, stdoutHit_header pid]
    rfl
  · show List.filterMap loremOf _ = _
    rw [demo_events, List.filterMap_append, List.filterMap_append, List.filterMap_append,
      List.filterMap_append, lorem_header pid]
    rfl

/-- Claim C3: re-running the scripts with no arguments gives structurally
identical output: the color probe's output is byte-identical across any
two runs; the demo generator's trace has the same event skeleton for any
two pids; and the task simulator's trace, with timestamps erased and the
randomized WARNING lines dropped, is identical across any two clocks and
draw sequences. -/
theorem claim_C3 :
    (∀ e₁ e₂ : ScriptEnv, colors_run e₁ = colors_run e₂)
    ∧ (∀ e₁ e₂ : ScriptEnv, ((demo_run e₁).1).map evShape = ((demo_run e₂).1).map evShape)
    ∧ (∀ (c₁ c₂ : Nat → DateTime) (r₁ r₂ : Nat → Nat → ℚ) (pv : String),
        List.filterMap tShapeNW (mainBody c₁ r₁ pv)
          = List.filterMap tShapeNW (mainBody c₂ r₂ pv)) :=
  ⟨fun _ _ => rfl, fun _ _ => rfl, fun c₁ c₂ r₁ r₂ pv => tsnw_mainBody c₁ c₂ r₁ r₂ pv⟩

/-- Claim C4 (amended): in the demo output generator the stderr line is
flushed immediately — the stderr flush is the next event after it — but
the stdout line "This goes to stdout" is not: the next event after it is
the stderr write, and no stdout flush occurs anywhere after it. -/
theorem claim_C4 (pid : Nat) :
    (∃ l₁ l₂, demo_events pid =
        l₁ ++ [Ev.out "This goes to stdout", Ev.err "This goes to stderr", Ev.flushErr] ++ l₂
      ∧ Ev.flushOut ∉ l₂)
    ∧ flushedRightAfter (Ev.err "This goes to stderr") Ev.flushErr (demo_events pid) = true := by
  refine ⟨⟨demoHeader pid ++ demoProgress ++ [Ev.out "", Ev.out "Testing different output types:"],
      [Ev.out "\nGenerating long output:"] ++ demoLorem ++ demoTail, rfl, by decide⟩, rfl⟩

/-- Claim C4 counterexample: it is not the case that both the stdout line
and the stderr line of the demo generator are flushed immediately (before
the next output statement): the stdout write is followed directly by the
stderr write with no stdout flush in between. -/
theorem claim_C4_counterexample :
    ¬ (flushedRightAfter (Ev.out "This goes to stdout") Ev.flushOut (demo_events 1) = true
       ∧ flushedRightAfter (Ev.err "This goes to stderr") Ev.flushErr (demo_events 1) = true) := by
  decide

/-- Claim C5: for each task of the fixed list — ("Data Processing", 3),
("File Analysis", 2), ("Report Generation", 4) — the progress loop of
`simulate_work` prints exactly the eleven percentages 0.0, 10.0, ...,
100.0 (one decimal place) in order, with exactly one `duration/10`-second
sleep between consecutive progress lines (ten sleeps), for every clock and
every draw sequence. -/
theorem claim_C5 (clock : Nat → DateTime) (rnd : Nat → Nat → ℚ) (t n : Nat) :
    tasks = [("Data Processing", 3), ("File Analysis", 2), ("Report Generation", 4)]
    ∧ stepShape "Data Processing" (simulate_work clock rnd t 3 "Data Processing" n).1
      = [Sum.inl "0.0%", Sum.inr 300, Sum.inl "10.0%", Sum.inr 300, Sum.inl "20.0%", Sum.inr 300,
         Sum.inl "30.0%", Sum.inr 300, Sum.inl "40.0%", Sum.inr 300, Sum.inl "50.0%", Sum.inr 300,
         Sum.inl "60.0%", Sum.inr 300, Sum.inl "70.0%", Sum.inr 300, Sum.inl "80.0%", Sum.inr 300,
         Sum.inl "90.0%", Sum.inr 300, Sum.inl "100.0%"]
    ∧ stepShape "File Analysis" (simulate_work clock rnd t 2 "File Analysis" n).1
      = [Sum.inl "0.0%", Sum.inr 200, Sum.inl "10.0%", Sum.inr 200, Sum.inl "20.0%", Sum.inr 200,
         Sum.inl "30.0%", Sum.inr 200, Sum.inl "40.0%", Sum.inr 200, Sum.inl "50.0%", Sum.inr 200,
         Sum.inl "60.0%", Sum.inr 200, Sum.inl "70.0%", Sum.inr 200, Sum.inl "80.0%", Sum.inr 200,
         Sum.inl "90.0%", Sum.inr 200, Sum.inl "100.0%"]
    ∧ stepShape "Report Generation" (simulate_work clock rnd t 4 "Report Generation" n).1
      = [Sum.inl "0.0%", Sum.inr 400, Sum.inl "10.0%", Sum.inr 400, Sum.inl "20.0%", Sum.inr 400,
         Sum.inl "30.0%", Sum.inr 400, Sum.inl "40.0%", Sum.inr 400, Sum.inl "50.0%", Sum.inr 400,
         Sum.inl "60.0%", Sum.inr 400, Sum.inl "70.0%", Sum.inr 400, Sum.inl "80.0%", Sum.inr 400,
         Sum.inl "90.0%", Sum.inr 400, Sum.inl "100.0%"] := by
  refine ⟨rfl, ?_, ?_, ?_⟩
  · rw [stepShape_sim clock rnd t 3 n "Data Processing" shapeOf_warn_dp rfl (fun _ => rfl)]
    rfl
  · rw [stepShape_sim clock rnd t 2 n "File Analysis" shapeOf_warn_fa rfl (fun _ => rfl)]
    rfl
  · rw [stepShape_sim clock rnd t 4 n "Report Generation" shapeOf_warn_rg rfl (fun _ => rfl)]
    rfl

/-- Claim C6: in one task of the task simulator the WARNING lines are
exactly those of the steps 0..9 whose pseudo-random draw is below 0.1 (in
step order), and each warning message names the current task and the
current step number. -/
theorem claim_C6 (clock : Nat → DateTime) (rnd : Nat → Nat → ℚ) (t dur n : Nat) (nm : String) :
    warnTexts (simulate_work clock rnd t dur nm n).1
      = ((List.range 10).filter fun j => decide (rnd t j < (1 : ℚ)/10)).map (warnMsg nm)
    ∧ ∀ i : Nat, (∃ x y, warnMsg nm i = x ++ (nm ++ y))
      ∧ (∃ u v, warnMsg nm i = u ++ (toString (i + 1) ++ v)) := by
  constructor
  · show List.filterMap warnShape _ = _
    simp only [simulate_work, log_message]
    rw [List.filterMap_append, List.filterMap_append, fmWarn_info, fmWarn_info,
      warnTexts_workLoop clock rnd t dur nm 10 0 (n + 1), List.range_eq_range']
    simp
  · intro i
    refine ⟨⟨"Minor issue in ", " (step " ++ (toString (i + 1) ++ ")"),
        by simp [warnMsg, String.append_assoc]⟩,
      ⟨"Minor issue in " ++ (nm ++ " (step "), ")", by simp [warnMsg, String.append_assoc]⟩⟩

/-- Claim C7: the color probe emits exactly 14 individually colored lines,
in the fixed standard-then-bright order with escape parameters 31–37 then
91–97, then the 6 colored labels of the simulated log stream; every
colored line ends with the reset sequence `ESC[0m`; and the log stream is
the 6 fixed (level, color, message) triples in the given order, each entry
followed by a fixed 1 s delay. -/
theorem claim_C7 :
    coloredTexts colors_events =
      (colors ++ bright_colors).map (fun nc => colorWrap nc.2 (nc.1 ++ " text"))
        ++ log_entries.map (fun e => colorWrap e.2.1 ("[" ++ e.1 ++ "]"))
    ∧ (colors ++ bright_colors).map Prod.snd =
        ["31", "32", "33", "34", "35", "36", "37", "91", "92", "93", "94", "95", "96", "97"]
    ∧ (colors ++ bright_colors).length = 14
    ∧ (coloredTexts colors_events).all endsWithReset = true
    ∧ (∃ l₁ l₂, colors_events =
        l₁ ++ (log_entries.flatMap fun e =>
          [Ev.out (colorWrap e.2.1 ("[" ++ e.1 ++ "]")), Ev.out (" " ++ e.2.2), Ev.sleepMs 1000]) ++ l₂)
    ∧ log_entries =
        [("INFO", "32", "Application started successfully"),
         ("DEBUG", "36", "Loading configuration file"),
         ("WARNING", "33", "Configuration file not found, using defaults"),
         ("ERROR", "31", "Failed to connect to database"),
         ("INFO", "32", "Retrying connection..."),
         ("SUCCESS", "92", "Connected to database successfully")] := by
  refine ⟨rfl, rfl, rfl, by decide, ⟨[Ev.out "Python ANSI Color Test", Ev.out (strRepeat "=" 25)]
    ++ colors.flatMap (fun nc => [Ev.out (colorWrap nc.2 (nc.1 ++ " text")), Ev.sleepMs 500])
    ++ [Ev.out "\nBright colors:"]
    ++ bright_colors.flatMap (fun nc => [Ev.out (colorWrap nc.2 (nc.1 ++ " text")), Ev.sleepMs 500])
    ++ [Ev.out "\nReal-time log simulation:"], [Ev.out "\nColor test completed!"], rfl⟩, rfl⟩

/-- Claim C8: the demo output generator and the color probe always exit
with code 0: their entry points complete without producing a nonzero
status, for every run environment. -/
theorem claim_C8 (env : ScriptEnv) : (demo_run env).2 = 0 ∧ (colors_run env).2 = 0 :=
  ⟨rfl, rfl⟩

/-- Claim C9: every line printed by the task simulator, on every control
path (normal, interrupt, error), is produced by `log_message` and hence
has the exact format `[timestamp] LEVEL: message` with the timestamp in
`%Y-%m-%d %H:%M:%S` form, and stdout is flushed immediately after each
printed line. -/
theorem claim_C9 (clock : Nat → DateTime) (rnd : Nat → Nat → ℚ) (pv : String) (o : RunOutcome) :
    (∀ s, OutEv.print s ∈ renderAll (mainRun clock rnd pv o).1 →
       ∃ ts lv m, s = "[" ++ fmtTimestamp ts ++ "] " ++ lv ++ ": " ++ m)
    ∧ flushDiscipline (renderAll (mainRun clock rnd pv o).1) = true :=
  ⟨fun s h => renderAll_format _ s h, flushDiscipline_renderAll _⟩

/-- Witness for claim C9: the first printed line of a concrete normal run
has the timestamped format. -/
theorem claim_C9_witness :
    ∃ ts lv m, "[2024-01-02 03:04:05] INFO: Python example script starting"
      = "[" ++ fmtTimestamp ts ++ "] " ++ lv ++ ": " ++ m :=
  (claim_C9 wClock wRnd "3.12.3" RunOutcome.normal).1 _ (by
    show OutEv.print _ ∈ renderAll (mainBody wClock wRnd "3.12.3")
    simp only [mainBody, log_message]
    rw [renderAll_append]
    exact List.mem_append_left _ (List.mem_cons_self _ _))

/-- Claim C10: each of the six entries of the color probe's simulated log
stream produces two separate output lines in direct succession: the
colored `[LEVEL]` label on its own line, then the plain message on the
next line prefixed with a single space. -/
theorem claim_C10 : ∀ e ∈ log_entries, ∃ pre post, colors_events =
    pre ++ [Ev.out (colorWrap e.2.1 ("[" ++ e.1 ++ "]")), Ev.out (" " ++ e.2.2)] ++ post := by
  intro e he
  fin_cases he <;> exact hasRun_exists (by decide)

/-- Witness for claim C10: the first log entry, concretely. -/
theorem claim_C10_witness :
    (("INFO", "32", "Application started successfully") ∈ log_entries)
    ∧ ∃ pre post, colors_events =
        pre ++ [Ev.out (colorWrap "32" ("[" ++ "INFO" ++ "]")),
                Ev.out (" " ++ "Application started successfully")] ++ post :=
  ⟨by decide, claim_C10 ("INFO", "32", "Application started successfully") (by decide)⟩
